import Mathlib

/-!
Shallow embedding of the slimpath-server intelligent tracking/analysis engine
(`src/controllers/trackingController.js`, first definition set, lines 1-590).

Modelling conventions:
* JavaScript numbers are modelled as exact rationals (`ℚ`); `Math.round x`
  is `⌊x + 1/2⌋` (round half toward positive infinity), `Math.floor` is `⌊·⌋`.
  Floating-point rounding error is not modelled.
* `Math.sqrt` (used only by `calculateVolatility`) is modelled with `Real.sqrt`.
* Absent object fields (`undefined` / `null`) are modelled with `Option`;
  a `none` flowing through arithmetic (JavaScript `NaN`) stays `none`.
* Thrown exceptions are modelled with `Except String` carrying the message.
* Dates are milliseconds since the epoch (`ℤ`); `new Date()` becomes an
  explicit `now : ℤ` argument.
* Division by zero: the engine divides by `durationWeeks` in several places;
  Lean's `x / 0 = 0` convention differs from JavaScript's `Infinity`.  The
  data model requires `durationWeeks ≥ 1` and all theorems that depend on a
  quotient carry that hypothesis.
-/

/-- JavaScript `Math.round` on a rational: round half up. -/
def jsRound (x : ℚ) : ℤ := ⌊x + 1/2⌋

/-- JavaScript `Math.round` on a real (for the `Math.sqrt`-based volatility). -/
noncomputable def jsRoundR (x : ℝ) : ℤ := ⌊x + 1/2⌋

/-- The `type` switch argument of `convertUnits`. -/
inductive UnitKind
  | weight
  | height
  | other
deriving DecidableEq

/-- `convertUnits(value, type)` (trackingController.js lines 5-16):
weights under 100 are assumed kilograms and converted to pounds,
heights under 10 are assumed meters and converted to feet. -/
def convertUnits (value : ℚ) (kind : UnitKind) : ℚ :=
  match kind with
  | .weight => if value < 100 then value * 2.20462 else value
  | .height => if value < 10 then value * 3.28084 else value
  | .other => value

/-- The five recognized activity levels (`validActivityLevels`). -/
inductive ActivityLevel
  | sedentary
  | lightlyActive
  | moderatelyActive
  | veryActive
  | extraActive
deriving DecidableEq

/-- Membership test in `validActivityLevels` (lines 95-98), as a parser:
`some` exactly on the five recognized strings. -/
def parseActivityLevel (s : String) : Option ActivityLevel :=
  if s = "sedentary" then some .sedentary
  else if s = "lightlyActive" then some .lightlyActive
  else if s = "moderatelyActive" then some .moderatelyActive
  else if s = "veryActive" then some .veryActive
  else if s = "extraActive" then some .extraActive
  else none

/-- `activityMultipliers` lookup table (lines 39-45). -/
def activityMultiplier : ActivityLevel → ℚ
  | .sedentary => 1.2
  | .lightlyActive => 1.375
  | .moderatelyActive => 1.55
  | .veryActive => 1.725
  | .extraActive => 1.9

/-- `distributionFactors` lookup table (lines 109-115):
morning / afternoon / night shares per activity level. -/
def distributionFactors : ActivityLevel → ℚ × ℚ × ℚ
  | .sedentary => (0.25, 0.35, 0.4)
  | .lightlyActive => (0.3, 0.4, 0.3)
  | .moderatelyActive => (0.35, 0.4, 0.25)
  | .veryActive => (0.4, 0.35, 0.25)
  | .extraActive => (0.4, 0.3, 0.3)

/-- One meal slot of the distribution (calories plus static content). -/
structure MealSlot where
  calories : ℤ
  description : String
  recommendedMeals : List String
deriving DecidableEq

/-- Result shape of `calculateOptimalMealDistribution`. -/
structure MealDistribution where
  morning : MealSlot
  afternoon : MealSlot
  night : MealSlot
  total : ℤ
deriving DecidableEq

/-- `calculateOptimalMealDistribution(dailyCalories, activityLevel, isUpdate)`
(lines 108-139).  All call sites pass the already-rounded integer calorie
target.  On update the morning factor is capped at 0.25. -/
def calculateOptimalMealDistribution (dailyCalories : ℤ)
    (activityLevel : ActivityLevel) (isUpdate : Bool := false) : MealDistribution :=
  let f := distributionFactors activityLevel
  let morningFactor := f.1
  let afternoonFactor := f.2.1
  let nightFactor := f.2.2
  let adjustedMorningFactor := if isUpdate then min morningFactor 0.25 else morningFactor
  { morning :=
      { calories := jsRound ((dailyCalories : ℚ) * adjustedMorningFactor)
        description := "High-protein meal to kickstart metabolism"
        recommendedMeals := ["Protein smoothie"] }
    afternoon :=
      { calories := jsRound ((dailyCalories : ℚ) * afternoonFactor)
        description := "Balanced meal for sustained energy"
        recommendedMeals := ["Grilled chicken salad"] }
    night :=
      { calories := jsRound ((dailyCalories : ℚ) * nightFactor)
        description := "Light meal to support recovery"
        recommendedMeals := ["Turkey with sweet potato"] }
    total := dailyCalories }

/-- The raw argument object of `getIntelligentAnalysis`; `none` models an
`undefined`/`null` field. -/
structure AnalysisParams where
  currentWeight : Option ℚ
  goalWeight : Option ℚ
  durationWeeks : Option ℚ
  age : Option ℚ
  height : Option ℚ
  activityLevel : Option String
deriving DecidableEq

/-- `validateAnalysisParams` (lines 86-106).  The `requiredParams` list names
only five fields — `age` is absent from it — and the checks run in source
order, throwing the first applicable message.  The caller passes the object
with weight/height already replaced by their converted values. -/
def validateAnalysisParams (params : AnalysisParams) : Except String Unit :=
  if params.currentWeight = none then .error "Missing required parameter: currentWeight"
  else if params.goalWeight = none then .error "Missing required parameter: goalWeight"
  else if params.durationWeeks = none then .error "Missing required parameter: durationWeeks"
  else if params.height = none then .error "Missing required parameter: height"
  else if params.activityLevel = none then .error "Missing required parameter: activityLevel"
  else if parseActivityLevel (params.activityLevel.getD "") = none then
    .error "Invalid activity level"
  else if params.currentWeight.getD 0 ≤ 0 then
    .error "Current weight must be a positive number"
  else if params.height.getD 0 ≤ 0 then
    .error "Height must be a positive number"
  else .ok ()

/-- `heightInInches` (line 47): the converted height is treated as feet and
multiplied by 12, then rounded. -/
def heightInchesOf (convertedHeight : ℚ) : ℤ := jsRound (convertedHeight * 12)

/-- `weightInKg` (line 50). -/
def weightKgOf (convertedWeight : ℚ) : ℚ := convertedWeight * 0.453592

/-- `heightInCm` (line 51). -/
def heightCmOf (convertedHeight : ℚ) : ℚ := (heightInchesOf convertedHeight : ℚ) * 2.54

/-- `bmr` (line 54), Mifflin-St Jeor with the fixed male offset `+5`. -/
def bmrOf (convertedWeight convertedHeight age : ℚ) : ℚ :=
  10 * weightKgOf convertedWeight + 6.25 * heightCmOf convertedHeight - 5 * age + 5

/-- `TDEE` (line 56). -/
def tdeeOf (convertedWeight convertedHeight age : ℚ) (lvl : ActivityLevel) : ℚ :=
  bmrOf convertedWeight convertedHeight age * activityMultiplier lvl

/-- `dailyDeficit` (line 61): the deficit itself is clamped at zero. -/
def dailyDeficitOf (convertedWeight convertedGoal durationWeeks : ℚ) : ℚ :=
  max ((convertedWeight - convertedGoal) * 3500 / (durationWeeks * 7)) 0

/-- `dailyCalories` (line 63). -/
def dailyCaloriesOf (convertedWeight convertedGoal durationWeeks age convertedHeight : ℚ)
    (lvl : ActivityLevel) : ℤ :=
  jsRound (tdeeOf convertedWeight convertedHeight age lvl -
    dailyDeficitOf convertedWeight convertedGoal durationWeeks)

/-- Return shape of `getIntelligentAnalysis` (lines 66-83).  `dailyCalories`
is `none` when the unvalidated `age` field is absent (JavaScript `NaN`), and
then the meal distribution is `NaN`-valued as well.  The initial progress
note (free text plus wall-clock timestamp, lines 69-72) and the echoed
`originalParams` are not modelled: no claim observes them. -/
structure AnalysisResult where
  dailyCalories : Option ℤ
  mealDistribution : Option MealDistribution
  convertedParams : ℚ × ℚ × ℚ
deriving DecidableEq

/-- `getIntelligentAnalysis` (lines 18-84): convert units, validate the
converted object, then compute the calorie target and meal distribution.
After validation the five required fields are provably present, so the
`getD` defaults are never observed; `age` is genuinely optional and a
missing `age` poisons the arithmetic (`none` = `NaN`). -/
def getIntelligentAnalysis (params : AnalysisParams) : Except String AnalysisResult :=
  let convertedCurrentWeight := params.currentWeight.map (convertUnits · .weight)
  let convertedGoalWeight := params.goalWeight.map (convertUnits · .weight)
  let convertedHeight := params.height.map (convertUnits · .height)
  match validateAnalysisParams { params with
      currentWeight := convertedCurrentWeight
      goalWeight := convertedGoalWeight
      height := convertedHeight } with
  | .error e => .error e
  | .ok _ =>
    let cw := convertedCurrentWeight.getD 0
    let gw := convertedGoalWeight.getD 0
    let h := convertedHeight.getD 0
    let dw := params.durationWeeks.getD 0
    let lvl := (parseActivityLevel (params.activityLevel.getD "")).getD .sedentary
    let dailyCalories := params.age.map fun age => dailyCaloriesOf cw gw dw age h lvl
    .ok { dailyCalories := dailyCalories
          mealDistribution := dailyCalories.map
            fun c => calculateOptimalMealDistribution c lvl false
          convertedParams := (cw, gw, h) }

/-- One entry of `weeklyProgress` as produced by `generateProgressProjection`
(lines 273-279).  `dailyCalories` is `none` when the snapshot handed to the
projector lacks that field (the update path's six-field object). -/
structure WeekEntry where
  week : ℤ
  currentWeight : ℚ
  predictedDate : ℤ
  dailyCalories : Option ℤ
  calorieAdjustment : ℤ
deriving DecidableEq

/-- The snapshot fields `generateProgressProjection` reads from its
`trackingData` argument. -/
structure ProjInput where
  currentWeight : ℚ
  goalWeight : ℚ
  durationWeeks : ℚ
  dailyCalories : Option ℤ
deriving DecidableEq

/-- `calculateCalorieAdjustment(currentWeek, totalWeightLoss, totalWeeks)`
(lines 315-327); the middle argument is accepted but never used. -/
def calculateCalorieAdjustment (currentWeek : ℤ) (totalWeightLoss : ℚ)
    (totalWeeks : ℚ) : ℤ :=
  let progressPercentage := ((currentWeek : ℚ) / totalWeeks) * 100
  if progressPercentage < 25 then 50
  else if progressPercentage < 50 then 25
  else if progressPercentage < 75 then -25
  else -50

/-- `daysSinceStart` (line 263): whole days elapsed since the anchor. -/
def daysSince (startDate now : ℤ) : ℤ := ⌊((now - startDate : ℤ) : ℚ) / 86400000⌋

/-- `currentWeek` (line 264): `floor(daysSinceStart / 7) + 1`. -/
def projCurrentWeek (startDate now : ℤ) : ℤ := ⌊(daysSince startDate now : ℚ) / 7⌋ + 1

/-- `generateProgressProjection(userId, trackingData, lastUpdateDate)`
(lines 251-280), on the path where `trackingData` is supplied (both `get`
and `update` pass it, so the database fallback of lines 252-259 is not
modelled).  `startDate` is the anchor (`lastUpdateDate`), `now` the wall
clock; both in milliseconds. -/
def generateProgressProjection (trackingData : ProjInput) (startDate now : ℤ) :
    List WeekEntry :=
  let currentWeek : ℤ := projCurrentWeek startDate now
  if (currentWeek : ℚ) > trackingData.durationWeeks then []
  else
    let weightDelta := trackingData.currentWeight - trackingData.goalWeight
    [{ week := currentWeek
       currentWeight := trackingData.currentWeight
       predictedDate := startDate + currentWeek * 604800000
       dailyCalories := trackingData.dailyCalories
       calorieAdjustment :=
         calculateCalorieAdjustment currentWeek weightDelta trackingData.durationWeeks }]

/-- The `trendDirection` accumulator of `detectProgressPatterns`
(lines 195-200). -/
structure TrendCounts where
  positive : ℤ
  negative : ℤ
  neutral : ℤ
deriving DecidableEq

/-- Return shape of `detectProgressPatterns`.  The sentinel object carries
only the first three fields (the rest are `undefined`), hence the
`Option`s. -/
structure PatternResult where
  overallTrend : String
  patternType : String
  consistencyScore : ℤ
  volatility : Option ℤ
  averageWeeklyChange : Option ℚ
  trendDetails : Option TrendCounts
deriving DecidableEq

/-- The insufficient-data sentinel (lines 184-188). -/
def insufficientData : PatternResult :=
  { overallTrend := "Insufficient data", patternType := "N/A", consistencyScore := 0
    volatility := none, averageWeeklyChange := none, trendDetails := none }

/-- `calculateConsistencyScore(changes, averageChange)` (lines 230-237). -/
def calculateConsistencyScore (changes : List ℚ) (averageChange : ℚ) : ℤ :=
  let deviations := changes.map fun change => |change - averageChange|
  let averageDeviation := deviations.sum / (deviations.length : ℚ)
  jsRound (max 0 (100 - averageDeviation * 20))

/-- `calculateVolatility(changes)` (lines 239-249); `Math.sqrt` forces ℝ. -/
noncomputable def calculateVolatility (changes : List ℚ) : ℤ :=
  if changes.length < 2 then 0
  else
    let mean := changes.sum / (changes.length : ℚ)
    let variance := (changes.map fun change => (change - mean) ^ 2).sum / (changes.length : ℚ)
    let standardDeviation := Real.sqrt (variance : ℝ)
    jsRoundR (min 100 (standardDeviation * 10))

/-- Week-over-week deltas (line 193): `weights.slice(1).map((w,i) => w - weights[i])`. -/
def weightChangesOf (weights : List ℚ) : List ℚ :=
  (weights.drop 1).zipWith (fun next prev => next - prev) weights

/-- `detectProgressPatterns(weeklyProgress)` (lines 182-228). -/
noncomputable def detectProgressPatterns (weeklyProgress : List WeekEntry) : PatternResult :=
  if weeklyProgress.length < 3 then insufficientData
  else
    let weights := weeklyProgress.map (·.currentWeight)
    let weightChanges := weightChangesOf weights
    let trendDirection := weightChanges.foldl
      (fun acc change =>
        if change > 0 then { acc with positive := acc.positive + 1 }
        else if change < 0 then { acc with negative := acc.negative + 1 }
        else { acc with neutral := acc.neutral + 1 })
      (⟨0, 0, 0⟩ : TrendCounts)
    let averageChange := weightChanges.sum / (weightChanges.length : ℚ)
    let consistencyScore := calculateConsistencyScore weightChanges averageChange
    let patternType :=
      if trendDirection.positive > trendDirection.negative ∧
          trendDirection.positive > trendDirection.neutral then "Gradual Gain"
      else if trendDirection.negative > trendDirection.positive ∧
          trendDirection.negative > trendDirection.neutral then "Steady Decline"
      else if trendDirection.neutral > trendDirection.positive ∧
          trendDirection.neutral > trendDirection.negative then "Stable"
      else "Inconsistent"
    { overallTrend := patternType
      patternType := patternType
      consistencyScore := consistencyScore
      volatility := some (calculateVolatility weightChanges)
      averageWeeklyChange := some averageChange
      trendDetails := some trendDirection }

/-- Result of `calculateStreak` (lines 584-587). -/
structure Streak where
  current : ℕ
  best : ℕ
deriving DecidableEq

/-- The loop of `calculateStreak` (lines 575-582), processing scores left to
right with the running and best streak as accumulators. -/
def streakGo : ℕ → ℕ → List ℚ → Streak
  | currentStreak, bestStreak, [] => ⟨currentStreak, bestStreak⟩
  | currentStreak, bestStreak, score :: rest =>
    if 80 ≤ score then streakGo (currentStreak + 1) (max bestStreak (currentStreak + 1)) rest
    else streakGo 0 bestStreak rest

/-- `calculateStreak(adherenceScores)` (lines 571-588). -/
def calculateStreak (adherenceScores : List ℚ) : Streak := streakGo 0 0 adherenceScores

/-- Specification-side helper: length of the initial run of scores ≥ 80. -/
def runLen : List ℚ → ℕ
  | [] => 0
  | score :: rest => if 80 ≤ score then runLen rest + 1 else 0

/-- Specification-side: the current streak, i.e. the length of the maximal
suffix of consecutive scores ≥ 80. -/
def trailRun (scores : List ℚ) : ℕ := runLen scores.reverse

/-- Specification-side: the longest run of consecutive scores ≥ 80 anywhere
in the list (every run is the initial run of some suffix). -/
def bestRun : List ℚ → ℕ
  | [] => 0
  | score :: rest => max (runLen (score :: rest)) (bestRun rest)

/-- A `progressNotes` entry: free text plus a timestamp. -/
structure ProgressNote where
  note : String
  date : ℤ
deriving DecidableEq

/-- Result of `generateRecommendations` when progress data exists
(lines 402-406). -/
structure Recommendations where
  bestDays : List String
  sleepCorrelation : String
  focusAreas : String
deriving DecidableEq

/-- Chart payload of `generateChartData` (lines 307-311).
`calorieDistribution` is `none` when the stored meal distribution is the
`NaN` one (record created without an `age`). -/
structure ChartData where
  weightProgress : List (ℤ × ℚ)
  calorieDistribution : Option (ℤ × ℤ × ℤ)
  progressTrend : List (ℤ × ℚ × ℚ)
deriving DecidableEq

/-- The persisted tracking record, restricted to the fields the controller
reads or writes.  Derived fields that are absent until the first update
(`recommendations`, `progressPatterns`, `chartData`) are `Option`s. -/
structure Tracking where
  currentWeight : ℚ
  goalWeight : ℚ
  durationWeeks : ℚ
  age : Option ℚ
  height : Option ℚ
  activityLevel : Option String
  dailyCalories : Option ℤ
  mealDistribution : Option MealDistribution
  progressNotes : List ProgressNote
  weeklyProgress : List WeekEntry
  recommendations : Option Recommendations
  progressPatterns : Option PatternResult
  chartData : Option ChartData
  createdAt : ℤ
deriving DecidableEq

/-- `generateRecommendations(tracking)` (lines 390-407): threshold rules on
the remaining weight; `none` models the no-progress-data message object. -/
def generateRecommendations (weeklyProgress : List WeekEntry)
    (currentWeight goalWeight : ℚ) : Option Recommendations :=
  if weeklyProgress.length = 0 then none
  else
    let weightLeft := currentWeight - goalWeight
    some
      { bestDays :=
          if weightLeft > 5 then ["Monday", "Wednesday", "Friday"]
          else ["Tuesday", "Thursday"]
        sleepCorrelation := if weightLeft < 2 then "Positive" else "Negative"
        focusAreas :=
          if weightLeft > 5 then "Increase physical activity" else "Maintain consistency" }

/-- First match of the regex `\d+(\.\d+)?` in a character list: the maximal
digit run starting at the first digit, extended by a fractional part when a
dot followed by at least one digit comes right after. -/
def findNumberToken : List Char → Option (List Char)
  | [] => none
  | c :: rest =>
    if c.isDigit then
      let ds := (c :: rest).takeWhile Char.isDigit
      let tail := (c :: rest).dropWhile Char.isDigit
      match tail with
      | '.' :: afterDot =>
        let fs := afterDot.takeWhile Char.isDigit
        if fs.isEmpty then some ds else some (ds ++ '.' :: fs)
      | _ => some ds
    else findNumberToken rest

/-- Digits-to-number accumulator for `parseFloat`. -/
def digitsToNat (ds : List Char) : ℕ :=
  ds.foldl (fun acc c => 10 * acc + (c.toNat - 48)) 0

/-- JavaScript `parseFloat` on a token matched by `\d+(\.\d+)?` (exact
rational value; binary floating-point rounding is not modelled). -/
def parseFloatToken (token : List Char) : ℚ :=
  let intPart := token.takeWhile (fun c => c ≠ '.')
  let fracPart := (token.dropWhile (fun c => c ≠ '.')).drop 1
  (digitsToNat intPart : ℚ) + (digitsToNat fracPart : ℚ) / (10 : ℚ) ^ fracPart.length

/-- `note.note.match(/\d+(\.\d+)?/)[0]` (line 287): `none` models the
`TypeError` thrown by indexing a `null` match result. -/
def noteWeight (note : ProgressNote) : Option (ℤ × ℚ) :=
  (findNumberToken note.note.data).map fun tok => (note.date, parseFloatToken tok)

/-- The `weightChartData` map (lines 285-289): fails on the first note whose
text contains no digit. -/
def collectNoteWeights : List ProgressNote → Option (List (ℤ × ℚ))
  | [] => some []
  | n :: rest =>
    match noteWeight n, collectNoteWeights rest with
    | some p, some ps => some (p :: ps)
    | _, _ => none

/-- `generateChartData(tracking)` (lines 282-312).  `none` models the
uncaught `TypeError` from a digit-free progress note. -/
def generateChartData (tracking : Tracking) : Option ChartData :=
  match collectNoteWeights tracking.progressNotes with
  | none => none
  | some weightChartData =>
    some
      { weightProgress := weightChartData
        calorieDistribution := tracking.mealDistribution.map
          fun md => (md.morning.calories, md.afternoon.calories, md.night.calories)
        progressTrend := tracking.weeklyProgress.map fun week =>
          (week.week, week.currentWeight,
            tracking.goalWeight + (tracking.currentWeight - tracking.goalWeight) *
              (1 - (week.week : ℚ) / tracking.durationWeeks)) }

/-- Result of `calculateAdherenceMetrics` (lines 562-568). -/
structure AdherenceMetrics where
  overallAdherence : ℤ
  weeklyAdherence : List ℚ
  streak : Streak
  consistencyScore : ℤ

/-- The per-week adherence score (lines 555-560):
`max(0, 100 - |expectedWeight - actualWeight| * 10)` against the linear
glide path anchored at the record's current weight. -/
def adherenceScoreOf (initialWeight expectedWeeklyChange : ℚ) (week : WeekEntry) : ℚ :=
  let expectedWeight := initialWeight - expectedWeeklyChange * (week.week : ℚ)
  let difference := |expectedWeight - week.currentWeight|
  max 0 (100 - difference * 10)

/-- `calculateAdherenceMetrics(tracking, weeklyProgress)` (lines 550-569). -/
def calculateAdherenceMetrics (tracking : Tracking) (weeklyProgress : List WeekEntry) :
    AdherenceMetrics :=
  let initialWeight := tracking.currentWeight
  let expectedWeeklyChange := (initialWeight - tracking.goalWeight) / tracking.durationWeeks
  let adherenceScores := weeklyProgress.map (adherenceScoreOf initialWeight expectedWeeklyChange)
  { overallAdherence := jsRound (adherenceScores.sum / (adherenceScores.length : ℚ))
    weeklyAdherence := adherenceScores
    streak := calculateStreak adherenceScores
    consistencyScore := calculateConsistencyScore (weeklyProgress.map (·.currentWeight))
      (match weeklyProgress with
       | [] => initialWeight
       | w :: _ => w.currentWeight) }

/-- The `ProjInput` view of a stored record, as passed by `getTracking`
(line 419: the whole record, so `dailyCalories` comes along). -/
def projInputOfTracking (t : Tracking) : ProjInput :=
  { currentWeight := t.currentWeight, goalWeight := t.goalWeight
    durationWeeks := t.durationWeeks, dailyCalories := t.dailyCalories }

/-- The composed view `getTracking` responds with (lines 421-433). -/
structure TrackingView where
  currentWeight : ℚ
  goalWeight : ℚ
  dailyCalories : Option ℤ
  mealDistribution : Option MealDistribution
  weeklyProgress : List WeekEntry
  recommendations : Option Recommendations
  progressNotes : List ProgressNote
  progressPatterns : PatternResult
  chartData : ChartData
deriving DecidableEq

/-- `getTracking` (lines 410-439) on a found record: recompute the
projection and patterns from the stored history and current time, build the
chart, and compose the view.  A chart `TypeError` is caught by the handler
and surfaced as a retrieval failure (lines 436-438, 457-462). -/
noncomputable def getTrackingView (tracking : Tracking) (now : ℤ) :
    Except String TrackingView :=
  let weeklyProgress := generateProgressProjection (projInputOfTracking tracking)
    tracking.createdAt now
  match generateChartData tracking with
  | none => .error "Tracking Retrieval failed"
  | some chart =>
    .ok { currentWeight := tracking.currentWeight
          goalWeight := tracking.goalWeight
          dailyCalories := tracking.dailyCalories
          mealDistribution := tracking.mealDistribution
          weeklyProgress := weeklyProgress
          recommendations := tracking.recommendations
          progressNotes := tracking.progressNotes
          progressPatterns := detectProgressPatterns weeklyProgress
          chartData := chart }

/-- The store interaction of `getTracking`: read the latest record, compute
the view, write nothing back (the handler never calls `save`). -/
noncomputable def runGetTracking (store : Option Tracking) (now : ℤ) :
    Option (Except String TrackingView) × Option Tracking :=
  (store.map (getTrackingView · now), store)

/-- The user-profile fields the update path reads as fallbacks. -/
structure UserInfo where
  height : Option ℚ
  age : Option ℚ
  activityLevel : Option String
deriving DecidableEq

/-- JavaScript `a || b` on numeric fields: `undefined`, `null` and `0` fall
through to the right operand. -/
def jsOrQ (a b : Option ℚ) : Option ℚ :=
  match a with
  | some x => if x = 0 then b else some x
  | none => b

/-- JavaScript `a || b` on string fields: the empty string is falsy. -/
def jsOrStr (a b : Option String) : Option String :=
  match a with
  | some s => if s = "" then b else some s
  | none => b

/-- JavaScript truthiness of an optional number. -/
def jsTruthyQ (a : Option ℚ) : Bool :=
  match a with
  | some x => decide (x ≠ 0)
  | none => false

/-- `updateTracking` (lines 329-387) after the user and latest record have
been found: resolve the height fallback chain, append the progress note
(the note text's number rendering is approximated by `toString`; only its
digit content is ever observed downstream), re-run the analysis, and
regenerate every derived field in source order before saving.  The
`trackingData` object passed to the projector has no `dailyCalories` key,
so the regenerated week entry carries `none` there.  A thrown analysis or
chart error aborts before `save` (lines 384-386). -/
noncomputable def updateTrackingCore (user : UserInfo) (tracking : Tracking)
    (reqHeight : Option ℚ) (updatedWeight : ℚ) (now : ℤ) : Except String Tracking :=
  let height := jsOrQ tracking.height (jsOrQ user.height reqHeight)
  if (!jsTruthyQ user.height && !jsTruthyQ reqHeight && !jsTruthyQ tracking.height) then
    .error "User height data is missing in profile"
  else
    let trackingData : AnalysisParams :=
      { currentWeight := some updatedWeight
        goalWeight := some tracking.goalWeight
        durationWeeks := some tracking.durationWeeks
        age := jsOrQ tracking.age user.age
        height := height
        activityLevel := jsOrStr tracking.activityLevel user.activityLevel }
    let t1 := { tracking with
        currentWeight := updatedWeight
        progressNotes := tracking.progressNotes ++
          [({ note := "Weight updated to " ++ toString updatedWeight ++ " " ++
                (if updatedWeight < 100 then "kg" else "lbs")
              date := now } : ProgressNote)] }
    match getIntelligentAnalysis trackingData with
    | .error e => .error e
    | .ok analysis =>
      let lvl := (parseActivityLevel (trackingData.activityLevel.getD "")).getD .sedentary
      let t2 := { t1 with
          dailyCalories := analysis.dailyCalories
          mealDistribution := analysis.dailyCalories.map
            fun c => calculateOptimalMealDistribution c lvl true
          weeklyProgress := generateProgressProjection
            ({ currentWeight := updatedWeight
               goalWeight := tracking.goalWeight
               durationWeeks := tracking.durationWeeks
               dailyCalories := none } : ProjInput)
            tracking.createdAt now }
      let t3 := { t2 with recommendations :=
          generateRecommendations t2.weeklyProgress t2.currentWeight t2.goalWeight }
      let t4 := { t3 with progressPatterns := some (detectProgressPatterns t3.weeklyProgress) }
      match generateChartData t4 with
      | none => .error "Tracking Update failed"
      | some chart => .ok { t4 with chartData := some chart }

/-- Specification-side step function of percent-through-plan for the
projection's calorie adjustment (spec 4.4). -/
def specStepAdjustment (pct : ℚ) : ℤ :=
  if pct < 25 then 50
  else if pct < 50 then 25
  else if pct < 75 then -25
  else -50

/-- Specification-side BMR for the C2 scenario: the claim reads the
normalized height as inches and converts it directly to centimeters
(`heightCm = heightInches * 2.54`). -/
def specBmrInchesToCm (weightLbs heightInches age : ℚ) : ℚ :=
  10 * (weightLbs * 0.453592) + 6.25 * (heightInches * 2.54) - 5 * age + 5

/-- Whether a string contains a decimal digit. -/
def hasDigit (s : String) : Bool := s.data.any Char.isDigit

/-- Left-to-right recursion computing the running streak (the `current`
component of the `calculateStreak` loop). -/
def trailCarry (cur : ℕ) : List ℚ → ℕ
  | [] => cur
  | score :: rest => trailCarry (if 80 ≤ score then cur + 1 else 0) rest

/-- A property holds of the success value of an `Except` (and fails on
`error`). -/
def exceptHolds {ε α : Type} (P : α → Prop) : Except ε α → Prop
  | .ok a => P a
  | .error _ => False

/-- C1 failing input: an aggressive goal (lose 200 lbs in one week) whose
required deficit dwarfs TDEE.  All validation checks pass. -/
def c1FailingParams : AnalysisParams :=
  { currentWeight := some 300, goalWeight := some 100, durationWeeks := some 1
    age := some 30, height := some 70, activityLevel := some "sedentary" }

/-- The spec's §8 scenario input for C2. -/
def c2Params : AnalysisParams :=
  { currentWeight := some 180, goalWeight := some 160, durationWeeks := some 8
    age := some 30, height := some 70, activityLevel := some "moderatelyActive" }

/-- C3 failing input: identical to the C2 scenario but with `age` absent. -/
def c3MissingAgeParams : AnalysisParams :=
  { currentWeight := some 180, goalWeight := some 160, durationWeeks := some 8
    age := none, height := some 70, activityLevel := some "moderatelyActive" }

/-- A stored tracking record used as concrete input by several witnesses:
valid biometrics, one digit-bearing progress note, no derived fields yet. -/
def sampleTracking : Tracking :=
  { currentWeight := 200, goalWeight := 140, durationWeeks := 10
    age := some 30, height := some 170, activityLevel := some "moderatelyActive"
    dailyCalories := some 1800, mealDistribution := none
    progressNotes := [{ note := "start 200 lbs", date := 0 }]
    weeklyProgress := [], recommendations := none, progressPatterns := none
    chartData := none, createdAt := 0 }

/-- A record whose first progress note contains no digit (C10 failing
input). -/
def badNoteTracking : Tracking :=
  { sampleTracking with progressNotes := [{ note := "no digits here", date := 0 }] }

/-- A user profile with no fallback data. -/
def emptyUser : UserInfo := { height := none, age := none, activityLevel := none }

/-- Three concrete weekly observations (for exercising the ≥ 3 branch of
`detectProgressPatterns`). -/
def sampleWeeks : List WeekEntry :=
  [{ week := 1, currentWeight := 200, predictedDate := 0, dailyCalories := none
     calorieAdjustment := 0 },
   { week := 2, currentWeight := 199, predictedDate := 0, dailyCalories := none
     calorieAdjustment := 0 },
   { week := 3, currentWeight := 197, predictedDate := 0, dailyCalories := none
     calorieAdjustment := 0 }]

/-! ### Helper lemmas -/

theorem jsRound_le (x : ℚ) : (jsRound x : ℚ) ≤ x + 1/2 :=
  Int.floor_le _

theorem lt_jsRound (x : ℚ) : x - 1/2 < (jsRound x : ℚ) := by
  have h := Int.sub_one_lt_floor (x + 1/2)
  unfold jsRound
  linarith

theorem jsRound_nonneg {x : ℚ} (hx : 0 ≤ x) : 0 ≤ jsRound x :=
  Int.le_floor.mpr (by push_cast; linarith)

theorem jsRound_le_int {x : ℚ} {n : ℤ} (hx : x ≤ (n : ℚ)) : jsRound x ≤ n := by
  have h : jsRound x < n + 1 := Int.floor_lt.mpr (by push_cast; linarith)
  omega

theorem jsRoundR_nonneg {x : ℝ} (hx : 0 ≤ x) : 0 ≤ jsRoundR x :=
  Int.le_floor.mpr (by push_cast; linarith)

theorem jsRoundR_le_int {x : ℝ} {n : ℤ} (hx : x ≤ (n : ℝ)) : jsRoundR x ≤ n := by
  have h : jsRoundR x < n + 1 := Int.floor_lt.mpr (by push_cast; linarith)
  omega

/-- Rounding three shares of a calorie target whose factors sum to one
loses at most one calorie in total (hence well within ±3). -/
theorem sum_jsRound_bound (c : ℤ) (f1 f2 f3 : ℚ) (hsum : f1 + f2 + f3 = 1) :
    |jsRound ((c : ℚ) * f1) + jsRound ((c : ℚ) * f2) + jsRound ((c : ℚ) * f3) - c| ≤ 3 := by
  have h1 := jsRound_le ((c : ℚ) * f1)
  have h2 := jsRound_le ((c : ℚ) * f2)
  have h3 := jsRound_le ((c : ℚ) * f3)
  have g1 := lt_jsRound ((c : ℚ) * f1)
  have g2 := lt_jsRound ((c : ℚ) * f2)
  have g3 := lt_jsRound ((c : ℚ) * f3)
  have hmul : (c : ℚ) * f1 + (c : ℚ) * f2 + (c : ℚ) * f3 = (c : ℚ) := by
    rw [← mul_add, ← mul_add, hsum, mul_one]
  rw [abs_le]
  constructor
  · have h : (-3 : ℚ) ≤
        ((jsRound ((c : ℚ) * f1) + jsRound ((c : ℚ) * f2) + jsRound ((c : ℚ) * f3) - c : ℤ) : ℚ) := by
      push_cast
      linarith
    exact_mod_cast h
  · have h : ((jsRound ((c : ℚ) * f1) + jsRound ((c : ℚ) * f2) + jsRound ((c : ℚ) * f3) - c : ℤ) : ℚ) ≤
        (3 : ℚ) := by
      push_cast
      linarith
    exact_mod_cast h

theorem calculateConsistencyScore_bounds (changes : List ℚ) (averageChange : ℚ) :
    0 ≤ calculateConsistencyScore changes averageChange ∧
    calculateConsistencyScore changes averageChange ≤ 100 := by
  unfold calculateConsistencyScore
  have hdev : 0 ≤ (changes.map fun change => |change - averageChange|).sum /
      ((changes.map fun change => |change - averageChange|).length : ℚ) := by
    apply div_nonneg
    · apply List.sum_nonneg
      intro x hx
      obtain ⟨y, _, rfl⟩ := List.mem_map.mp hx
      exact abs_nonneg _
    · positivity
  constructor
  · exact jsRound_nonneg (le_max_left _ _)
  · apply jsRound_le_int
    push_cast
    apply max_le (by norm_num)
    linarith

theorem calculateVolatility_bounds (changes : List ℚ) :
    0 ≤ calculateVolatility changes ∧ calculateVolatility changes ≤ 100 := by
  unfold calculateVolatility
  split
  · exact ⟨le_refl 0, by norm_num⟩
  · constructor
    · apply jsRoundR_nonneg
      apply le_min (by norm_num)
      have := Real.sqrt_nonneg
        (((changes.map fun change => (change - changes.sum / (changes.length : ℚ)) ^ 2).sum /
          (changes.length : ℚ) : ℚ) : ℝ)
      positivity
    · apply jsRoundR_le_int
      push_cast
      exact min_le_left _ _

/-- The projection emits at most one entry. -/
theorem generateProgressProjection_length_le_one (d : ProjInput) (startDate now : ℤ) :
    (generateProgressProjection d startDate now).length ≤ 1 := by
  simp only [generateProgressProjection]
  split <;> simp

/-- Fewer than three observations hit the sentinel branch. -/
theorem detectProgressPatterns_short {wp : List WeekEntry} (h : wp.length < 3) :
    detectProgressPatterns wp = insufficientData := by
  unfold detectProgressPatterns
  rw [if_pos h]

/-- The regex matcher succeeds exactly when some character is a digit. -/
theorem findNumberToken_isSome (l : List Char) :
    (findNumberToken l).isSome = l.any Char.isDigit := by
  induction l with
  | nil => rfl
  | cons c rest ih =>
    by_cases h : c.isDigit = true
    · simp only [findNumberToken]
      rw [if_pos h, List.any_cons, h, Bool.true_or]
      split
      · split <;> rfl
      · rfl
    · simp only [findNumberToken]
      rw [if_neg h, List.any_cons, ih, Bool.eq_false_iff.mpr h, Bool.false_or]

/-- Collecting the chart's note weights succeeds exactly when every note
contains a digit. -/
theorem collectNoteWeights_isSome (notes : List ProgressNote)
    (h : ∀ n ∈ notes, hasDigit n.note = true) :
    (collectNoteWeights notes).isSome = true := by
  induction notes with
  | nil => rfl
  | cons n rest ih =>
    have hn : (findNumberToken n.note.data).isSome = true := by
      rw [findNumberToken_isSome]
      exact h n (List.mem_cons_self n rest)
    have hrest := ih fun m hm => h m (List.mem_cons_of_mem n hm)
    simp only [collectNoteWeights]
    obtain ⟨tok, htok⟩ := Option.isSome_iff_exists.mp hn
    obtain ⟨ps, hps⟩ := Option.isSome_iff_exists.mp hrest
    simp [noteWeight, htok, hps]

/-- The initial run never beats the best run. -/
theorem runLen_le_bestRun (l : List ℚ) : runLen l ≤ bestRun l := by
  cases l with
  | nil => exact le_refl 0
  | cons s rest => exact le_max_left _ _

/-- The `best` accumulator of the streak loop computes the best of the
starting value, the initial run extended by the carried-in streak, and the
best run of the rest. -/
theorem streakGo_best (l : List ℚ) : ∀ cur best : ℕ, cur ≤ best →
    (streakGo cur best l).best = max best (max (cur + runLen l) (bestRun l)) := by
  induction l with
  | nil =>
    intro cur best h
    simp only [streakGo, runLen, bestRun]
    omega
  | cons s rest ih =>
    intro cur best h
    by_cases hs : (80 : ℚ) ≤ s
    · rw [streakGo, if_pos hs, ih (cur + 1) (max best (cur + 1)) (le_max_right _ _)]
      rw [runLen, if_pos hs, bestRun, runLen, if_pos hs]
      omega
    · rw [streakGo, if_neg hs, ih 0 best (Nat.zero_le _)]
      rw [runLen, if_neg hs, bestRun, runLen, if_neg hs]
      have := runLen_le_bestRun rest
      omega

/-- The `current` accumulator of the streak loop is the left-to-right
carried streak. -/
theorem streakGo_current (l : List ℚ) : ∀ cur best : ℕ,
    (streakGo cur best l).current = trailCarry cur l := by
  induction l with
  | nil => intro cur best; rfl
  | cons s rest ih =>
    intro cur best
    by_cases hs : (80 : ℚ) ≤ s
    · rw [streakGo, if_pos hs, ih, trailCarry, if_pos hs]
    · rw [streakGo, if_neg hs, ih, trailCarry, if_neg hs]

/-- Appending one score updates the carried streak the obvious way. -/
theorem trailCarry_append (l : List ℚ) : ∀ (cur : ℕ) (x : ℚ),
    trailCarry cur (l ++ [x]) = if 80 ≤ x then trailCarry cur l + 1 else 0 := by
  induction l with
  | nil => intro cur x; rfl
  | cons s rest ih =>
    intro cur x
    rw [List.cons_append, trailCarry, ih, trailCarry]

/-- The carried streak from zero is the length of the maximal all-good
suffix. -/
theorem trailCarry_eq_trailRun (l : List ℚ) : trailCarry 0 l = trailRun l := by
  induction l using List.reverseRecOn with
  | nil => rfl
  | append_singleton l x ih =>
    rw [trailCarry_append, trailRun, List.reverse_append]
    simp only [List.reverse_cons, List.reverse_nil, List.nil_append, List.singleton_append]
    rw [runLen, ← trailRun, ← ih]

/-! ### Claim theorems -/

/-- Claim C4, counterexample: on the update recomputation for an
`extraActive` user with a 2000 kcal target, the morning cap makes the slot
calories sum to 1700, missing `dailyCalories` by 300 — far outside the
claimed ±3 kcal tolerance. -/
theorem claim4_counterexample :
    (calculateOptimalMealDistribution 2000 .extraActive true).morning.calories = 500 ∧
    (calculateOptimalMealDistribution 2000 .extraActive true).afternoon.calories = 600 ∧
    (calculateOptimalMealDistribution 2000 .extraActive true).night.calories = 600 ∧
    ¬(|(calculateOptimalMealDistribution 2000 .extraActive true).morning.calories +
        (calculateOptimalMealDistribution 2000 .extraActive true).afternoon.calories +
        (calculateOptimalMealDistribution 2000 .extraActive true).night.calories -
        (calculateOptimalMealDistribution 2000 .extraActive true).total| ≤ 3) := by
  norm_num [calculateOptimalMealDistribution, distributionFactors, jsRound]

/-- Claim C4 (amended): for every non-negative calorie target and activity
level the returned `total` equals the input in both modes, and for the
initial computation (`isUpdate = false`) the three slot calories sum to
within ±3 kcal of the target; the update recomputation can fall short by
more because the capped morning ratio makes the factors sum below one. -/
theorem claim4_mealDistribution (c : ℤ) (hc : 0 ≤ c) (lvl : ActivityLevel) (isUpdate : Bool) :
    (calculateOptimalMealDistribution c lvl isUpdate).total = c ∧
    (isUpdate = false →
      |(calculateOptimalMealDistribution c lvl isUpdate).morning.calories +
        (calculateOptimalMealDistribution c lvl isUpdate).afternoon.calories +
        (calculateOptimalMealDistribution c lvl isUpdate).night.calories - c| ≤ 3) := by
  constructor
  · rfl
  · rintro rfl
    cases lvl <;> exact sum_jsRound_bound c _ _ _ (by norm_num [distributionFactors])

/-- Witness for C4 at a concrete input. -/
theorem claim4_witness :
    (0 : ℤ) ≤ 2000 ∧
    (calculateOptimalMealDistribution 2000 .sedentary false).total = 2000 ∧
    |(calculateOptimalMealDistribution 2000 .sedentary false).morning.calories +
      (calculateOptimalMealDistribution 2000 .sedentary false).afternoon.calories +
      (calculateOptimalMealDistribution 2000 .sedentary false).night.calories - 2000| ≤ 3 :=
  ⟨by norm_num, (claim4_mealDistribution 2000 (by norm_num) .sedentary false).1,
    (claim4_mealDistribution 2000 (by norm_num) .sedentary false).2 rfl⟩

/-- Claim C5: with `currentWeek = floor(daysSince(anchor)/7) + 1`, the
projection is empty when `currentWeek > durationWeeks`, and otherwise is
exactly one entry for the current week, predicted date `anchor +
currentWeek * 7 days`, with the calorie adjustment given by the coarse
step function of percent-through-plan. -/
theorem claim5_projection (d : ProjInput) (startDate now : ℤ) :
    ((projCurrentWeek startDate now : ℚ) > d.durationWeeks →
      generateProgressProjection d startDate now = []) ∧
    ((projCurrentWeek startDate now : ℚ) ≤ d.durationWeeks →
      generateProgressProjection d startDate now =
        [{ week := projCurrentWeek startDate now
           currentWeight := d.currentWeight
           predictedDate := startDate + projCurrentWeek startDate now * 604800000
           dailyCalories := d.dailyCalories
           calorieAdjustment := specStepAdjustment
             (((projCurrentWeek startDate now : ℚ) / d.durationWeeks) * 100) }]) := by
  constructor
  · intro h
    simp only [generateProgressProjection]
    rw [if_pos h]
  · intro h
    simp only [generateProgressProjection]
    rw [if_neg (not_lt.mpr h)]
    rfl

/-- Witness for C5: ten days into a ten-week plan the projection is the
single week-2 entry with a +50 kcal adjustment. -/
theorem claim5_witness :
    ((projCurrentWeek 0 864000000 : ℚ) ≤ (⟨200, 180, 10, some 1500⟩ : ProjInput).durationWeeks) ∧
    generateProgressProjection ⟨200, 180, 10, some 1500⟩ 0 864000000 =
      [{ week := projCurrentWeek 0 864000000
         currentWeight := 200
         predictedDate := 0 + projCurrentWeek 0 864000000 * 604800000
         dailyCalories := some 1500
         calorieAdjustment := specStepAdjustment
           (((projCurrentWeek 0 864000000 : ℚ) / (10 : ℚ)) * 100) }] := by
  have hd : daysSince 0 864000000 = 10 := by
    norm_num [daysSince]
  have hw : projCurrentWeek 0 864000000 = 2 := by
    rw [projCurrentWeek, hd]
    norm_num
  have h : ((projCurrentWeek 0 864000000 : ℚ) ≤ (10 : ℚ)) := by
    rw [hw]; norm_num
  exact ⟨h, (claim5_projection ⟨200, 180, 10, some 1500⟩ 0 864000000).2 h⟩

/-- Claim C6: fewer than three weekly observations return the
insufficient-data sentinel; with three or more, the consistency score and
the volatility both land in [0, 100]. -/
theorem claim6_detectPatterns (wp : List WeekEntry) :
    (wp.length < 3 → detectProgressPatterns wp = insufficientData) ∧
    (3 ≤ wp.length →
      0 ≤ (detectProgressPatterns wp).consistencyScore ∧
      (detectProgressPatterns wp).consistencyScore ≤ 100 ∧
      ∃ v, (detectProgressPatterns wp).volatility = some v ∧ 0 ≤ v ∧ v ≤ 100) := by
  constructor
  · exact detectProgressPatterns_short
  · intro h
    have hnot : ¬ wp.length < 3 := not_lt.mpr h
    simp only [detectProgressPatterns]
    rw [if_neg hnot]
    exact ⟨(calculateConsistencyScore_bounds _ _).1, (calculateConsistencyScore_bounds _ _).2,
      calculateVolatility _, rfl,
      (calculateVolatility_bounds _).1, (calculateVolatility_bounds _).2⟩

/-- Witness for C6 on three concrete observations. -/
theorem claim6_witness :
    3 ≤ sampleWeeks.length ∧ 0 ≤ (detectProgressPatterns sampleWeeks).consistencyScore :=
  ⟨by decide, ((claim6_detectPatterns sampleWeeks).2 (by decide)).1⟩

/-- Claim C8: `get` never writes the store back, and the composed view is a
pure function of the stored record and the clock, so a second read of the
unchanged store at the same instant yields the identical derived view. -/
theorem claim8_get_deterministic (store : Option Tracking) (now : ℤ) :
    (runGetTracking store now).2 = store ∧
    (runGetTracking store now).1 = store.map (getTrackingView · now) ∧
    (runGetTracking ((runGetTracking store now).2) now).1 = (runGetTracking store now).1 :=
  ⟨rfl, rfl, rfl⟩

/-- Claim C7: the adherence scorer assigns each week
`max(0, 100 - |expected - actual| * 10)` along the linear glide path from
the record's weight to the goal; a week exactly on the path scores 100, a
week 10 lbs off scores 0, and the streak is the pair (current trailing
run, longest run) of consecutive weeks scoring at least 80. -/
theorem claim7_adherence (t : Tracking) (wp : List WeekEntry) :
    (calculateAdherenceMetrics t wp).weeklyAdherence =
      wp.map (fun w => max 0 (100 -
        |t.currentWeight - (t.currentWeight - t.goalWeight) / t.durationWeeks * (w.week : ℚ) -
          w.currentWeight| * 10)) ∧
    (∀ (iw ch : ℚ) (w : WeekEntry),
      w.currentWeight = iw - ch * (w.week : ℚ) → adherenceScoreOf iw ch w = 100) ∧
    (∀ (iw ch : ℚ) (w : WeekEntry),
      |iw - ch * (w.week : ℚ) - w.currentWeight| = 10 → adherenceScoreOf iw ch w = 0) ∧
    (∀ scores : List ℚ, calculateStreak scores = ⟨trailRun scores, bestRun scores⟩) := by
  refine ⟨rfl, ?_, ?_, ?_⟩
  · intro iw ch w h
    simp only [adherenceScoreOf]
    rw [h, sub_self, abs_zero, zero_mul, sub_zero]
    norm_num
  · intro iw ch w h
    simp only [adherenceScoreOf]
    rw [h]
    norm_num
  · intro scores
    have h1 : (calculateStreak scores).current = trailRun scores := by
      rw [calculateStreak, streakGo_current, trailCarry_eq_trailRun]
    have h2 : (calculateStreak scores).best = bestRun scores := by
      rw [calculateStreak, streakGo_best scores 0 0 (le_refl 0)]
      have := runLen_le_bestRun scores
      omega
    rcases hS : calculateStreak scores with ⟨c, b⟩
    rw [hS] at h1 h2
    rw [Streak.mk.injEq]
    exact ⟨h1, h2⟩

/-- Witness for C7: on the 200 → 180 lbs in 10 weeks glide path, week 1 at
198 lbs scores 100, week 2 at 186 lbs (10 lbs below the expected 196)
scores 0, and the streak of [100, 0] is current 0, best 1. -/
theorem claim7_witness :
    adherenceScoreOf 200 2 { week := 1, currentWeight := 198, predictedDate := 0
                             dailyCalories := none, calorieAdjustment := 0 } = 100 ∧
    adherenceScoreOf 200 2 { week := 2, currentWeight := 186, predictedDate := 0
                             dailyCalories := none, calorieAdjustment := 0 } = 0 ∧
    calculateStreak [100, 0] = ⟨trailRun [100, 0], bestRun [100, 0]⟩ := by
  have h := claim7_adherence sampleTracking []
  refine ⟨h.2.1 200 2 _ ?_, h.2.2.1 200 2 _ ?_, h.2.2.2 [100, 0]⟩
  · show (198 : ℚ) = 200 - 2 * ((1 : ℤ) : ℚ)
    norm_num
  · show |(200 : ℚ) - 2 * ((2 : ℤ) : ℚ) - 186| = 10
    norm_num

/-- Claim C1 (code bug): the input `currentWeight=300, goalWeight=100,
durationWeeks=1, age=30, height=70, sedentary` passes every validation
check, yet the analysis returns `dailyCalories = -82539`: only the deficit
is clamped at zero (line 61), not the subtraction `TDEE - deficit`
(line 63), contradicting the schema's `dailyCalories ≥ 0` constraint. -/
theorem claim1_negative_dailyCalories :
    (getIntelligentAnalysis c1FailingParams).map (fun r => r.dailyCalories) =
      .ok (some (-82539)) ∧
    ¬(0 ≤ (-82539 : ℤ)) := by
  constructor
  · simp [getIntelligentAnalysis, c1FailingParams, validateAnalysisParams, parseActivityLevel,
      convertUnits]
    norm_num [dailyCaloriesOf, tdeeOf, bmrOf, weightKgOf, heightCmOf, heightInchesOf,
      dailyDeficitOf, activityMultiplier, jsRound]
    rfl
  · norm_num

/-- Claim C2, counterexample: on the spec's scenario the code returns
`dailyCalories = 20460`, not the value `1513` obtained by converting the
normalized 70 directly from inches to centimeters as the claim states —
the code instead multiplies the normalized height by 12 first (line 47). -/
theorem claim2_counterexample :
    (getIntelligentAnalysis c2Params).map (fun r => r.dailyCalories) = .ok (some 20460) ∧
    jsRound (specBmrInchesToCm 180 70 30 * 1.55 - 1250) = 1513 ∧
    (20460 : ℤ) ≠ 1513 := by
  refine ⟨?_, ?_, by norm_num⟩
  · simp [getIntelligentAnalysis, c2Params, validateAnalysisParams, parseActivityLevel,
      convertUnits]
    norm_num [dailyCaloriesOf, tdeeOf, bmrOf, weightKgOf, heightCmOf, heightInchesOf,
      dailyDeficitOf, activityMultiplier, jsRound]
    rfl
  · norm_num [specBmrInchesToCm, jsRound]

/-- Claim C2 (amended): on the scenario input the analysis computes
`dailyDeficit = 1250` and `dailyCalories = round(TDEE - 1250) = 20460`,
where BMR uses `weightKg = 180 * 0.453592` and
`heightCm = round(70 * 12) * 2.54 = 2133.6` — the code treats the
normalized height as feet, converting feet → inches → centimeters. -/
theorem claim2_scenario :
    (getIntelligentAnalysis c2Params).map (fun r => r.dailyCalories) =
      .ok (some (dailyCaloriesOf 180 160 8 30 70 .moderatelyActive)) ∧
    dailyDeficitOf 180 160 8 = 1250 ∧
    heightCmOf 70 = 2133.6 ∧
    bmrOf 180 70 30 = 10 * (180 * 0.453592) + 6.25 * heightCmOf 70 - 5 * 30 + 5 ∧
    tdeeOf 180 70 30 .moderatelyActive = bmrOf 180 70 30 * 1.55 ∧
    dailyCaloriesOf 180 160 8 30 70 .moderatelyActive =
      jsRound (tdeeOf 180 70 30 .moderatelyActive - 1250) ∧
    dailyCaloriesOf 180 160 8 30 70 .moderatelyActive = 20460 := by
  have hval : dailyCaloriesOf 180 160 8 30 70 .moderatelyActive = 20460 := by
    norm_num [dailyCaloriesOf, tdeeOf, bmrOf, weightKgOf, heightCmOf, heightInchesOf,
      dailyDeficitOf, activityMultiplier, jsRound]
  refine ⟨?_, ?_, ?_, ?_, ?_, ?_, hval⟩
  · rw [hval]
    simp [getIntelligentAnalysis, c2Params, validateAnalysisParams, parseActivityLevel,
      convertUnits]
    norm_num [dailyCaloriesOf, tdeeOf, bmrOf, weightKgOf, heightCmOf, heightInchesOf,
      dailyDeficitOf, activityMultiplier, jsRound]
    rfl
  · norm_num [dailyDeficitOf]
  · norm_num [heightCmOf, heightInchesOf, jsRound]
  · rfl
  · rfl
  · norm_num [dailyCaloriesOf, dailyDeficitOf]

/-- Claim C3 (code bug): `age` is missing from the `requiredParams` list
(line 87), so an input with `age` absent but every other field valid is
not rejected — the analysis returns successfully with a `NaN`
`dailyCalories` instead of throwing the claimed validation error. -/
theorem claim3_missing_age_not_rejected :
    c3MissingAgeParams.age = none ∧
    (getIntelligentAnalysis c3MissingAgeParams).map (fun r => r.dailyCalories) = .ok none := by
  constructor
  · rfl
  · simp [getIntelligentAnalysis, c3MissingAgeParams, validateAnalysisParams,
      parseActivityLevel, convertUnits]
    norm_num
    rfl

/-- Claim C9: whenever an update succeeds, the stored `weeklyProgress` is
wholesale replaced by the projection output (computed from the six-field
snapshot, so without `dailyCalories`), which has at most one entry; the
pattern detection run over it during the update therefore always stores
the insufficient-data sentinel — its ≥ 3-observation branch is unreachable
from the update path. -/
theorem claim9_update_patterns (user : UserInfo) (t : Tracking) (reqHeight : Option ℚ)
    (updatedWeight : ℚ) (now : ℤ) (t' : Tracking)
    (h : updateTrackingCore user t reqHeight updatedWeight now = .ok t') :
    t'.weeklyProgress = generateProgressProjection
      { currentWeight := updatedWeight, goalWeight := t.goalWeight
        durationWeeks := t.durationWeeks, dailyCalories := none } t.createdAt now ∧
    t'.weeklyProgress.length ≤ 1 ∧
    t'.progressPatterns = some insufficientData := by
  simp only [updateTrackingCore] at h
  split at h
  · exact Except.noConfusion h
  · split at h
    · exact Except.noConfusion h
    · split at h
      · exact Except.noConfusion h
      · injection h with h'
        subst h'
        refine ⟨rfl, generateProgressProjection_length_le_one _ _ _, ?_⟩
        show some (detectProgressPatterns _) = some insufficientData
        rw [detectProgressPatterns_short
          (Nat.lt_of_le_of_lt (generateProgressProjection_length_le_one _ _ _) (by norm_num))]

/-- Witness for C9: a concrete successful update one day after creation. -/
theorem claim9_witness :
    exceptHolds
      (fun r => r.weeklyProgress.length ≤ 1 ∧ r.progressPatterns = some insufficientData)
      (updateTrackingCore emptyUser sampleTracking none 150 86400000) := by
  have hok : (updateTrackingCore emptyUser sampleTracking none 150 86400000).isOk = true := by
    decide
  cases hE : updateTrackingCore emptyUser sampleTracking none 150 86400000 with
  | error e =>
    rw [hE] at hok
    exact Bool.noConfusion hok
  | ok r =>
    show r.weeklyProgress.length ≤ 1 ∧ r.progressPatterns = some insufficientData
    exact ⟨(claim9_update_patterns _ _ _ _ _ _ hE).2.1, (claim9_update_patterns _ _ _ _ _ _ hE).2.2⟩

/-- Claim C10: chart generation succeeds on every record all of whose
progress notes contain a digit, but a record with a digit-free note makes
the numeric-token match come back null and the unguarded `[0]` index throw,
so both `get` and `update` fail on such a record. -/
theorem claim10_chartData :
    (∀ t : Tracking, (∀ n ∈ t.progressNotes, hasDigit n.note = true) →
      (generateChartData t).isSome = true) ∧
    generateChartData badNoteTracking = none ∧
    (getTrackingView badNoteTracking 0).isOk = false ∧
    (updateTrackingCore emptyUser badNoteTracking none 150 0).isOk = false := by
  refine ⟨?_, by decide, by decide, by decide⟩
  intro t h
  obtain ⟨w, hw⟩ := Option.isSome_iff_exists.mp (collectNoteWeights_isSome t.progressNotes h)
  simp [generateChartData, hw]

/-- Witness for C10 on a record whose single note contains digits. -/
theorem claim10_witness :
    (∀ n ∈ sampleTracking.progressNotes, hasDigit n.note = true) ∧
    (generateChartData sampleTracking).isSome = true :=
  ⟨by decide, claim10_chartData.1 sampleTracking (by decide)⟩
